import Mathlib

/-!
Shallow embedding of `src/flexschema/flexschema.py` (zinosaure/flex-schema):
the Schema/Field validation engine, the Select/Statement predicate algebra,
the SQL compiler, the function-filter evaluator and pagination, together
with theorems settling the spec claims about them.
-/

namespace FlexSchema

/-- Python runtime values as used by the library: `None`, `str`, `int`,
`float` (modelled as rationals; every numeric literal appearing in the
claims is exactly representable), `bool`, `list`, `tuple`. -/
inductive PyVal where
  | pyNone : PyVal
  | str : String → PyVal
  | int : Int → PyVal
  | float : ℚ → PyVal
  | bool : Bool → PyVal
  | list : List PyVal → PyVal
  | tuple : List PyVal → PyVal

/-- The field types accepted by `Schema.add_field` (primitive branch;
nested `Flex` types are outside the claims considered here). -/
inductive PyType where
  | str | int | float | bool | list | tuple
deriving DecidableEq, Repr

/-- Python `value is None`. -/
def PyVal.isNone : PyVal → Bool
  | PyVal.pyNone => true
  | _ => false

/-- Is the value numeric for Python arithmetic/comparison purposes
(`int`, `float`, and `bool`, which is an `int` subclass)? -/
def PyVal.isNum : PyVal → Bool
  | PyVal.int _ => true
  | PyVal.float _ => true
  | PyVal.bool _ => true
  | _ => false

/-- Numeric content of a numeric value (`True` counts as 1, `False` as 0). -/
def PyVal.toRat : PyVal → ℚ
  | PyVal.int n => (n : ℚ)
  | PyVal.float q => q
  | PyVal.bool b => bif b then 1 else 0
  | _ => 0

/-- Python `isinstance(value, type)` restricted to the embedded universe.
`bool` is a subclass of `int` in Python, so a `bool` value is an instance
of `int`; an `int` value is not an instance of `float`. -/
def isinstance : PyVal → PyType → Bool
  | PyVal.str _, PyType.str => true
  | PyVal.int _, PyType.int => true
  | PyVal.bool _, PyType.int => true
  | PyVal.float _, PyType.float => true
  | PyVal.bool _, PyType.bool => true
  | PyVal.list _, PyType.list => true
  | PyVal.tuple _, PyType.tuple => true
  | _, _ => false

mutual
/-- Python `==` on embedded values: numerics compare by value across
`int`/`float`/`bool`; strings, `None` and booleans structurally; lists and
tuples elementwise.  Values of different non-numeric kinds are unequal. -/
def pyEq : PyVal → PyVal → Bool
  | PyVal.pyNone, PyVal.pyNone => true
  | PyVal.str a, PyVal.str b => a == b
  | PyVal.list a, PyVal.list b => pyEqList a b
  | PyVal.tuple a, PyVal.tuple b => pyEqList a b
  | a, b => a.isNum && b.isNum && a.toRat == b.toRat

def pyEqList : List PyVal → List PyVal → Bool
  | [], [] => true
  | a :: as', b :: bs' => pyEq a b && pyEqList as' bs'
  | _, _ => false
end

/-- Python `<` on embedded values.  Numerics compare by value, strings
lexicographically.  Any other combination raises `TypeError` in Python;
those combinations never arise in the claims and are modelled as `false`. -/
def pyLt : PyVal → PyVal → Bool
  | PyVal.str a, PyVal.str b => a < b
  | a, b => a.isNum && b.isNum && a.toRat < b.toRat

/-- Python `<=`, with the same caveats as `pyLt`. -/
def pyLe : PyVal → PyVal → Bool
  | PyVal.str a, PyVal.str b => a ≤ b
  | a, b => a.isNum && b.isNum && a.toRat ≤ b.toRat

/-- Python `len` on sized values (`str` counts characters, i.e. code
points, like Lean's `String.length`). -/
def pyLen : PyVal → Nat
  | PyVal.str s => s.length
  | PyVal.list xs => xs.length
  | PyVal.tuple xs => xs.length
  | _ => 0

/-- Python truthiness of an `Optional[int]` slot (`None` and `0` are
falsy, every other integer is truthy). -/
def intTruthy : Option Int → Bool
  | Option.none => false
  | some n => n != 0

/-- Python type names, as they appear in validation messages. -/
def PyType.pyName : PyType → String
  | PyType.str => "str"
  | PyType.int => "int"
  | PyType.float => "float"
  | PyType.bool => "bool"
  | PyType.list => "list"
  | PyType.tuple => "tuple"

/-- `type(value).__name__` for an embedded value. -/
def PyVal.typeName : PyVal → String
  | PyVal.pyNone => "NoneType"
  | PyVal.str _ => "str"
  | PyVal.int _ => "int"
  | PyVal.float _ => "float"
  | PyVal.bool _ => "bool"
  | PyVal.list _ => "list"
  | PyVal.tuple _ => "tuple"

/-- Lookup in a Python-dict-like association list (first binding wins;
`dictSet` keeps keys unique, matching `dict` semantics). -/
def dictGet (d : List (String × α)) (k : String) : Option α :=
  (d.find? (fun p => p.1 == k)).map (fun p => p.2)

/-- `d.get(k, default)`. -/
def dictGetD (d : List (String × α)) (k : String) (v : α) : α :=
  (dictGet d k).getD v

/-- `d[k] = v`: replace the binding in place if the key exists (Python
dicts keep the original insertion position), else append it. -/
def dictSet (d : List (String × α)) (k : String) (v : α) : List (String × α) :=
  if d.any (fun p => p.1 == k) then
    d.map (fun p => if p.1 == k then (k, v) else p)
  else d ++ [(k, v)]

/-- `Schema.Field.Constraint`.  A compiled regular expression is modelled
as its matching function (`re.match` anchored at the string start), so
patterns present in the model are always compilable. -/
structure Constraint where
  item_type : Option PyType := Option.none
  min_length : Option Int := Option.none
  max_length : Option Int := Option.none
  pattern : Option (String → Bool) := Option.none

/-- `Schema.Field`.  `nullable : bool | int` is modelled as `Int` with
`True = 1`, `False = 0` (truthiness: nonzero).  The serialization-time
`callback` plays no part in any claim and is omitted. -/
structure Field where
  name : String := ""
  type : PyType
  default : PyVal := PyVal.pyNone
  nullable : Int := 1
  constraint : Constraint := {}

/-- Validation message texts (field name spliced in; quotes from the
Python format strings are left out, the claims depend only on which check
produced the message, never on its exact text). -/
def msg_required (name : String) : String :=
  "Field " ++ name ++ ": is required and cannot be null."

def msg_type (name : String) (t : PyType) (v : PyVal) : String :=
  "Field " ++ name ++ ": must be of type " ++ t.pyName ++ ", got " ++
    v.typeName ++ " instead."

def msg_item (name : String) (i : Nat) (it : PyType) (v : PyVal) : String :=
  "Field " ++ name ++ "[" ++ toString i ++ "]: must be of type " ++
    it.pyName ++ ", got " ++ v.typeName ++ "."

def msg_min_len (name : String) (m : Int) (suffix : String) : String :=
  "Field " ++ name ++ ": must have at least: " ++ toString m ++ " " ++ suffix ++ "."

def msg_max_len (name : String) (m : Int) (suffix : String) : String :=
  "Field " ++ name ++ ": must have at most: " ++ toString m ++ " " ++ suffix ++ "."

def msg_ge (name : String) (m : Int) : String :=
  "Field " ++ name ++ ": must be greater than or equal to: " ++ toString m ++ "."

def msg_le (name : String) (m : Int) : String :=
  "Field " ++ name ++ ": must be less than or equal to: " ++ toString m ++ "."

def msg_pattern (name : String) : String :=
  "Field " ++ name ++ ": must match the pattern."

/-- The `for i, item in enumerate(value)` loop of `Field.evaluate`:
first item failing `isinstance(item, item_type)` wins. -/
def itemLoop (name : String) (it : PyType) : Nat → List PyVal → Option String
  | _, [] => Option.none
  | i, x :: xs =>
    if !(isinstance x it) then some (msg_item name i it x)
    else itemLoop name it (i + 1) xs

/-- Lines 133-136 of the source:
`if self.type is list and self.constraint and self.constraint.item_type:`
followed by the enumerate loop (a `Constraint` object is always truthy). -/
def itemCheck (f : Field) (value : PyVal) : Option String :=
  if f.type == PyType.list then
    match f.constraint.item_type, value with
    | some it, PyVal.list xs => itemLoop f.name it 0 xs
    | _, _ => Option.none
  else Option.none

/-- Lines 138-152 of the source: length bounds for `str`/`list`/`tuple`
(note the Python truthiness guard `self.constraint.min_length and ...`,
which skips a bound equal to `0`), and range bounds for `int`/`float`
(which additionally require the bound to be `> 0`). -/
def boundsCheckCode (f : Field) (value : PyVal) : Option String :=
  if f.type == PyType.str || f.type == PyType.list || f.type == PyType.tuple then
    let length : Int := (pyLen value : Int)
    let suffix := if f.type == PyType.str then "characters" else "items"
    if intTruthy f.constraint.min_length && length < (f.constraint.min_length.getD 0) then
      some (msg_min_len f.name (f.constraint.min_length.getD 0) suffix)
    else if intTruthy f.constraint.max_length && (f.constraint.max_length.getD 0) < length then
      some (msg_max_len f.name (f.constraint.max_length.getD 0) suffix)
    else Option.none
  else if f.type == PyType.int || f.type == PyType.float then
    if intTruthy f.constraint.min_length && 0 < (f.constraint.min_length.getD 0) &&
        value.toRat < (((f.constraint.min_length.getD 0) : Int) : ℚ) then
      some (msg_ge f.name (f.constraint.min_length.getD 0))
    else if intTruthy f.constraint.max_length && 0 < (f.constraint.max_length.getD 0) &&
        (((f.constraint.max_length.getD 0) : Int) : ℚ) < value.toRat then
      some (msg_le f.name (f.constraint.max_length.getD 0))
    else Option.none
  else Option.none

/-- Lines 154-156 of the source:
`if self.constraint.pattern and isinstance(value, str):` — the pattern is
only ever matched against `str` values. -/
def patternCheck (f : Field) (value : PyVal) : Option String :=
  match f.constraint.pattern, value with
  | some p, PyVal.str s => if !(p s) then some (msg_pattern f.name) else Option.none
  | _, _ => Option.none

/-- `Schema.Field.evaluate(value)` — the source's early-return chain:
null-ness, declared type, then the three checks above in order. -/
def Field.evaluate (f : Field) (value : PyVal) : Option String :=
  if intTruthy (some f.nullable) && value.isNone then Option.none
  else if !(intTruthy (some f.nullable)) && value.isNone then
    some (msg_required f.name)
  else if !(isinstance value f.type) then some (msg_type f.name f.type value)
  else
    match itemCheck f value with
    | some m => some m
    | Option.none =>
      match boundsCheckCode f value with
      | some m => some m
      | Option.none => patternCheck f value

/-- `Schema`: ordered mapping from field name to `Field`. -/
structure Schema where
  fields : List (String × Field) := []

/-- `Schema.add_field(name, field)` — the validation gate every field of a
successfully built schema has passed.  Raising `SchemaDefinitionException`
is modelled as `Except.error`.  The checks that cannot fail inside the
embedding are noted in place. -/
def Schema.add_field (s : Schema) (name : String) (f : Field) : Except String Schema :=
  -- `isinstance(field.type, type)` and membership of the allowed type set
  -- always hold: `PyType` only contains the allowed primitive types.
  if (f.type == PyType.list || f.type == PyType.tuple) && f.constraint.item_type.isNone then
    Except.error ("Field " ++ name ++ ": type list must have a constraint.item_type defined.")
  else if !(f.default.isNone) && !(isinstance f.default f.type) then
    Except.error ("Field " ++ name ++ ": default value must be of type " ++
      f.type.pyName ++ " or None. Got " ++ f.default.typeName ++ " instead.")
  else if f.nullable < 0 then
    Except.error ("Field " ++ name ++ ": nullable must be a boolean or a positive integer.")
  -- `isinstance(field.constraint, Schema.Field.Constraint)` always holds here.
  else if f.constraint.pattern.isSome &&
      !(f.type == PyType.int || f.type == PyType.float || f.type == PyType.str) then
    Except.error ("Field " ++ name ++ ": constraint.pattern works only on type of int, float, or str.")
  -- `re.compile(pattern)` cannot fail: patterns are modelled pre-compiled.
  -- The `callback` check is omitted together with callbacks.
  else
    Except.ok { fields := dictSet s.fields name { f with name := name } }

/-- First failing check wins: the first `some` message in the list. -/
def firstFailure : List (Option String) → Option String
  | [] => Option.none
  | Option.none :: rest => firstFailure rest
  | some m :: _ => some m

/-- The declared-type check as a standalone stage. -/
def typeCheck (f : Field) (value : PyVal) : Option String :=
  if !(isinstance value f.type) then some (msg_type f.name f.type value)
  else Option.none

/-- The bounds stage as claim C2 words it: length bounds for
`str`/`list`/`tuple` and `min_length <= value <= max_length` range bounds
for `int`/`float`, applied whenever the bound is declared (no truthiness
or positivity guard). -/
def boundsCheckSpec (f : Field) (value : PyVal) : Option String :=
  if f.type == PyType.str || f.type == PyType.list || f.type == PyType.tuple then
    let length : Int := (pyLen value : Int)
    let suffix := if f.type == PyType.str then "characters" else "items"
    if f.constraint.min_length.isSome && length < (f.constraint.min_length.getD 0) then
      some (msg_min_len f.name (f.constraint.min_length.getD 0) suffix)
    else if f.constraint.max_length.isSome && (f.constraint.max_length.getD 0) < length then
      some (msg_max_len f.name (f.constraint.max_length.getD 0) suffix)
    else Option.none
  else if f.type == PyType.int || f.type == PyType.float then
    if f.constraint.min_length.isSome &&
        value.toRat < (((f.constraint.min_length.getD 0) : Int) : ℚ) then
      some (msg_ge f.name (f.constraint.min_length.getD 0))
    else if f.constraint.max_length.isSome &&
        (((f.constraint.max_length.getD 0) : Int) : ℚ) < value.toRat then
      some (msg_le f.name (f.constraint.max_length.getD 0))
    else Option.none
  else Option.none

/-- The five-stage pipeline described by claim C2, parameterized by the
bounds stage: (1) null-ness against `nullable`, then first failure among
(2) declared type, (3) per-item type for lists, (4) bounds, (5) pattern. -/
def evaluatePipeline (bounds : Field → PyVal → Option String) (f : Field) (value : PyVal) :
    Option String :=
  if value.isNone then
    if intTruthy (some f.nullable) then Option.none else some (msg_required f.name)
  else
    firstFailure [typeCheck f value, itemCheck f value, bounds f value, patternCheck f value]

/-- The evaluator exactly as claim C2 states it (bounds enforced whenever
declared). -/
def evaluateClaim : Field → PyVal → Option String :=
  evaluatePipeline boundsCheckSpec

/-- The evaluator with the bounds stage the code actually implements
(zero bounds skipped for sized types, non-positive bounds skipped for
numeric types). -/
def evaluateAmended : Field → PyVal → Option String :=
  evaluatePipeline boundsCheckCode

/-! ## The predicate algebra: condition trees -/

/-- A materialized record (a MongoDB document / the `DocWrapper` view):
field name to value.  Host functions in function chains take such a
record; their extra `args` are already applied, as the evaluator never
inspects them separately. -/
def PyDoc := List (String × PyVal)

/-- The payload of a `$__function__` leaf:
`{"functions": [(fn, args), ...], "operator": op, "value": v}`. -/
structure FuncInfo where
  functions : List (PyDoc → PyVal)
  operator : String
  value : PyVal

mutual
/-- A condition: a Python dict `{key: entry, ...}`.  Keys are either the
logical operators `$and`/`$or`/`$not` or field names. -/
inductive Cond where
  | mk : List (String × Entry) → Cond

/-- The value stored under a condition key: a list of sub-conditions
(under `$and`/`$or`), a sub-condition dict (under `$not`), a bare scalar
(equality leaf), or an operator dict `{"$op": value, ...}`. -/
inductive Entry where
  | condList : List Cond → Entry
  | condDict : Cond → Entry
  | scalar : PyVal → Entry
  | ops : List (String × OpV) → Entry

/-- The value stored under an operator key: a scalar (possibly a list,
e.g. for `$in`), a nested operator dict (under a per-field `$not`), or a
function payload (under `$__function__`). -/
inductive OpV where
  | scalar : PyVal → OpV
  | nested : List (String × OpV) → OpV
  | func : FuncInfo → OpV
end

/-- The entries of a condition dict. -/
def Cond.items : Cond → List (String × Entry)
  | Cond.mk items => items

/-- `Flexmodel.Select.Statement`: a named field (dotted path) plus its
current model value and the accumulated function chain. -/
structure Statement where
  name : String
  model : PyVal := PyVal.pyNone
  functions : List (PyDoc → PyVal) := []

/-- `Statement.__gt__` (the comparison shape shared by all six operators):
with a function chain present the leaf defers to the function evaluator,
otherwise it is a plain operator leaf. -/
def Statement.gt (st : Statement) (value : PyVal) : Cond :=
  if !st.functions.isEmpty then
    Cond.mk [(st.name, Entry.ops [("$__function__", OpV.func ⟨st.functions, "$gt", value⟩)])]
  else Cond.mk [(st.name, Entry.ops [("$gt", OpV.scalar value)])]

/-- `Statement.__eq__`: a bare scalar leaf `{field: value}` when no
function chain is present. -/
def Statement.eq (st : Statement) (value : PyVal) : Cond :=
  if !st.functions.isEmpty then
    Cond.mk [(st.name, Entry.ops [("$__function__", OpV.func ⟨st.functions, "$eq", value⟩)])]
  else Cond.mk [(st.name, Entry.scalar value)]

/-- `Statement.is_between(start, end)`. -/
def Statement.is_between (st : Statement) (start endv : PyVal) : Cond :=
  Cond.mk [(st.name, Entry.ops [("$gte", OpV.scalar start), ("$lte", OpV.scalar endv)])]

/-- `Statement.is_not_between(start, end)`. -/
def Statement.is_not_between (st : Statement) (start endv : PyVal) : Cond :=
  Cond.mk [(st.name, Entry.ops [("$lt", OpV.scalar start), ("$gt", OpV.scalar endv)])]

/-- `Statement.function(func)`: returns a new `Statement` with the
function appended to the chain (`args` are pre-applied in the model). -/
def Statement.function (st : Statement) (func : PyDoc → PyVal) : Statement :=
  { st with functions := st.functions ++ [func] }

/-! ## The `Select` combinators and statement set -/

/-- `Select.match(*conditions)`: zero arguments give the empty dict,
otherwise `{"$and": [conditions...]}`.  (`match` is a Lean keyword, hence
the name.) -/
def Select.matchAll (conditions : List Cond) : Cond :=
  if conditions.length == 0 then Cond.mk []
  else Cond.mk [("$and", Entry.condList conditions)]

/-- `Select.at_least(*conditions)`: zero arguments give the empty dict,
otherwise `{"$or": [conditions...]}`. -/
def Select.at_least (conditions : List Cond) : Cond :=
  if conditions.length == 0 then Cond.mk []
  else Cond.mk [("$or", Entry.condList conditions)]

/-- `Select.not_match(*conditions)`. -/
def Select.not_match (conditions : List Cond) : Cond :=
  if conditions.length == 0 then Cond.mk []
  else Cond.mk [("$not", Entry.condDict (Cond.mk [("$and", Entry.condList conditions)]))]

/-- `Select.where(*conditions)`: each top-level key of each condition is
written into the active statement set, so the last write per key wins. -/
def Select.where (statements : List (String × Entry)) (conditions : List Cond) :
    List (String × Entry) :=
  conditions.foldl (fun st c => c.items.foldl (fun st p => dictSet st p.1 p.2) st) statements

/-- `Select.__getattr__(name)` — building a `Statement` validates the
field name against the model's schema and consults no store; the value
bound into the statement is the model's current value, defaulting to the
schema field's default (`Schema.__getitem__` falls back to `Field(str)`,
whose default is `None`). -/
def Select.getattr (schema : Schema) (modelDict : List (String × PyVal)) (name : String) :
    Except String Statement :=
  if !(schema.fields.any (fun p => p.1 == name)) then
    Except.error ("Select statement: field " ++ name ++ " does not exist in the model schema.")
  else
    Except.ok { name := name,
                model := dictGetD modelDict name (((dictGet schema.fields name).map
                  (fun f => f.default)).getD PyVal.pyNone) }

/-- `Select.__getitem__(name)` — same body as `Select.__getattr__`. -/
def Select.getitem (schema : Schema) (modelDict : List (String × PyVal)) (name : String) :
    Except String Statement :=
  if !(schema.fields.any (fun p => p.1 == name)) then
    Except.error ("Select statement: field " ++ name ++ " does not exist in the model schema.")
  else
    Except.ok { name := name,
                model := dictGetD modelDict name (((dictGet schema.fields name).map
                  (fun f => f.default)).getD PyVal.pyNone) }

/-! ## The SQL compiler (`Select.to_sql`) -/

/-- A single-quote character, used by the SQL rendering. -/
def quo : String := "\x27"

/-- Python `str(value)` as used by the f-strings of `to_sql`.  Floats and
containers get a simplified rendering (no claim depends on them). -/
def pyStr : PyVal → String
  | PyVal.pyNone => "None"
  | PyVal.str s => s
  | PyVal.int n => toString n
  | PyVal.float q => toString q
  | PyVal.bool b => bif b then "True" else "False"
  | PyVal.list _ => "[...]"
  | PyVal.tuple _ => "(...)"

/-- `json.dumps(value)` for the `$in`/`$nin` element lists. -/
def jsonDumps : PyVal → String
  | PyVal.pyNone => "null"
  | PyVal.str s => "\"" ++ s ++ "\""
  | PyVal.int n => toString n
  | PyVal.float q => toString q
  | PyVal.bool b => bif b then "true" else "false"
  | PyVal.list _ => "[...]"
  | PyVal.tuple _ => "[...]"

/-- Rendering of an operator payload in scalar position (`f"... '{val}'"`).
Non-scalar payloads never reach these positions through the public API. -/
def opvStr : OpV → String
  | OpV.scalar v => pyStr v
  | _ => ""

/-- The element list of an `$in`/`$nin` payload.  The source iterates the
value; a non-iterable payload would raise there and never occurs. -/
def inElems (v : OpV) : List PyVal :=
  match v with
  | OpV.scalar (PyVal.list xs) => xs
  | OpV.scalar (PyVal.tuple xs) => xs
  | _ => []

/-- The condition dict `{key: val}` rebuilt by the per-field `$not` branch
(`parse_condition({key: val})`), expressed as the entry stored under
`key`: an operator dict stays an operator dict, a scalar stays a scalar.
A `func` payload is a dict whose keys (`functions`, `operator`, `value`)
match no operator branch, so it renders exactly like an empty operator
dict. -/
def opvEntry : OpV → Entry
  | OpV.scalar v => Entry.scalar v
  | OpV.nested l => Entry.ops l
  | OpV.func _ => Entry.ops []

mutual
/-- `parse_condition(condition)` of `Select.to_sql`: clauses of every
entry, joined by `" AND "`. -/
def parseCond : Cond → String
  | Cond.mk items => String.intercalate " AND " (condClauses items)
termination_by c => sizeOf c * 2

/-- The clause list contributed by a condition dict's entries. -/
def condClauses : List (String × Entry) → List String
  | [] => []
  | (key, e) :: rest => entryClauses key e ++ condClauses rest
termination_by l => sizeOf l * 2

/-- The clauses contributed by one `key: value` entry, following the
source's dispatch: `$and`/`$or`/`$not`, then dict values as operator
dicts, else a bare scalar equality.  Branches marked unreachable cannot
be produced by the query-building API. -/
def entryClauses (key : String) (e : Entry) : List String :=
  if key == "$and" then
    match e with
    | Entry.condList l => ["(" ++ String.intercalate " AND " (parseCondList l) ++ ")"]
    | _ => []  -- unreachable: `$and` always carries a list of conditions
  else if key == "$or" then
    match e with
    | Entry.condList l => ["(" ++ String.intercalate " OR " (parseCondList l) ++ ")"]
    | _ => []  -- unreachable
  else if key == "$not" then
    match e with
    | Entry.condDict c => ["NOT (" ++ parseCond c ++ ")"]
    | _ => []  -- unreachable
  else
    match e with
    | Entry.scalar v => [key ++ " = " ++ quo ++ pyStr v ++ quo]
    | Entry.ops l => opClauses key l
    | _ => []  -- unreachable: a field key carries a scalar or an operator dict
termination_by sizeOf e * 2

/-- `[parse_condition(item) for item in value]`. -/
def parseCondList : List Cond → List String
  | [] => []
  | c :: cs => parseCond c :: parseCondList cs
termination_by l => sizeOf l * 2

/-- The `for op, val in value.items()` loop. -/
def opClauses (key : String) : List (String × OpV) → List String
  | [] => []
  | (op, val) :: rest => opClause key op val ++ opClauses key rest
termination_by l => sizeOf l * 2

/-- One operator: the `elif` chain of the source.  An operator matching
no branch (`$eq`, `$options`, `$all`, `$__function__`, ...) contributes
no clause.  The `$not` branch re-enters `parse_condition({key: val})`,
which on a single-entry dict is exactly the entry dispatch on `key`. -/
def opClause (key op : String) (val : OpV) : List String :=
  if op == "$ne" then [key ++ " != " ++ quo ++ opvStr val ++ quo]
  else if op == "$lt" then [key ++ " < " ++ quo ++ opvStr val ++ quo]
  else if op == "$gt" then [key ++ " > " ++ quo ++ opvStr val ++ quo]
  else if op == "$lte" then [key ++ " <= " ++ quo ++ opvStr val ++ quo]
  else if op == "$gte" then [key ++ " >= " ++ quo ++ opvStr val ++ quo]
  else if op == "$in" then
    [key ++ " IN (" ++ String.intercalate ", " ((inElems val).map jsonDumps) ++ ")"]
  else if op == "$nin" then
    [key ++ " NOT IN (" ++ String.intercalate ", " ((inElems val).map jsonDumps) ++ ")"]
  else if op == "$regex" then [key ++ " REGEXP " ++ quo ++ opvStr val ++ quo]
  else if op == "$not" then
    ["NOT (" ++ String.intercalate " AND " (entryClauses key (opvEntry val)) ++ ")"]
  else []
termination_by sizeOf val * 2 + 1
decreasing_by
  have h : sizeOf (opvEntry val) ≤ sizeOf val := by
    cases val with
    | scalar v => simp [opvEntry]
    | nested l => simp [opvEntry]
    | func fi => cases fi; simp [opvEntry]; omega
  omega
end

/-- `Select.to_sql` on the active statement set. -/
def to_sql (collection_name : String) (statements : List (String × Entry)) : String :=
  let sql := "SELECT * FROM " ++ collection_name
  if statements.isEmpty then sql
  else sql ++ " WHERE " ++ parseCond (Cond.mk statements)

/-! ## `Select._extract_function_filters` -/

mutual
/-- `process_condition(cond)`: the residual condition plus the function
filters lifted out (in traversal order, appended to one shared list in
the source). -/
def processCond : Cond → Cond × List (String × FuncInfo)
  | Cond.mk items =>
    let r := processItems items
    (Cond.mk r.1, r.2)

/-- The `for key, value in cond.items()` loop. -/
def processItems : List (String × Entry) → List (String × Entry) × List (String × FuncInfo)
  | [] => ([], [])
  | (key, e) :: rest =>
    let r1 := processEntry key e
    let r2 := processItems rest
    (r1.1 ++ r2.1, r1.2 ++ r2.2)

/-- One `key: value` entry: logical keys recurse; a field entry whose
dict value carries `$__function__` is extracted (and dropped from the
residual); everything else is kept.  The payload under `$__function__` is
always a `FuncInfo` for trees built by the `Statement` API. -/
def processEntry (key : String) (e : Entry) : List (String × Entry) × List (String × FuncInfo) :=
  if key == "$and" || key == "$or" || key == "$not" then
    match e with
    | Entry.condList l =>
      let r := processCondList l
      ([(key, Entry.condList r.1)], r.2)
    | Entry.condDict c =>
      let r := processCond c
      ([(key, Entry.condDict r.1)], r.2)
    | e => ([(key, e)], [])
  else
    match e with
    | Entry.ops l =>
      match dictGet l "$__function__" with
      | some (OpV.func fi) => ([], [(key, fi)])
      | _ => ([(key, Entry.ops l)], [])
    | e => ([(key, e)], [])

/-- `[process_condition(item) for item in value]`. -/
def processCondList : List Cond → List Cond × List (String × FuncInfo)
  | [] => ([], [])
  | c :: cs =>
    let r := processCond c
    let rs := processCondList cs
    (r.1 :: rs.1, r.2 ++ rs.2)
end

/-- `Select._extract_function_filters(conditions)` on a statement set. -/
def extract_function_filters (conditions : List (String × Entry)) :
    List (String × Entry) × List (String × FuncInfo) :=
  processItems conditions

/-! ## `Select._apply_function_filters` -/

/-- The inner `for func, args in func_info["functions"]` loop: apply each
function to the wrapper, then rebind the wrapper to expose the result
under the field's name for the next function.  `result` starts as
Python `None`. -/
def chainLoop (field_name : String) :
    List (PyDoc → PyVal) → PyDoc → PyVal → PyVal
  | [], _, result => result
  | f :: fs, w, _ =>
    let r := f w
    chainLoop field_name fs [(field_name, r)] r

/-- The comparison at the end of one function filter.  An unknown
operator matches no `elif` branch, so the record is not rejected. -/
def opCompare (operator : String) (result compare_value : PyVal) : Bool :=
  if operator == "$eq" then pyEq result compare_value
  else if operator == "$ne" then !(pyEq result compare_value)
  else if operator == "$lt" then pyLt result compare_value
  else if operator == "$gt" then pyLt compare_value result
  else if operator == "$lte" then pyLe result compare_value
  else if operator == "$gte" then pyLe compare_value result
  else true

/-- Whether one extracted function filter accepts a document: thread the
chain, then compare the final result to the stored value. -/
def filterPasses (doc : PyDoc) (field_name : String) (fi : FuncInfo) : Bool :=
  opCompare fi.operator (chainLoop field_name fi.functions doc PyVal.pyNone) fi.value

/-- The `for field_name, func_info in function_filters` loop with its
`match = False; break` bookkeeping. -/
def docPasses (doc : PyDoc) : List (String × FuncInfo) → Bool
  | [] => true
  | (field_name, fi) :: rest =>
    if !(filterPasses doc field_name fi) then false
    else docPasses doc rest

/-- The outer `for doc in documents` loop building `filtered`. -/
def filterLoop : List PyDoc → List (String × FuncInfo) → List PyDoc
  | [], _ => []
  | doc :: docs, ffs =>
    if docPasses doc ffs then doc :: filterLoop docs ffs
    else filterLoop docs ffs

/-- `Select._apply_function_filters(documents, function_filters)`. -/
def apply_function_filters (documents : List PyDoc)
    (function_filters : List (String × FuncInfo)) : List PyDoc :=
  if function_filters.isEmpty then documents
  else filterLoop documents function_filters

/-- The spec's example host function `f1(doc) = doc.price * 0.75`
(`0.75 = 3/4` is exact in both binary floating point and `ℚ`, and so are
`100 * 0.75 = 75` and `50 * 0.75 = 37.5`). -/
def discount75 (doc : PyDoc) : PyVal :=
  PyVal.float ((dictGetD doc "price" PyVal.pyNone).toRat * (3 / 4))

/-! ## `Select.fetch_all` and `Pagination` -/

/-- `Flexmodel.Select.Pagination`.  Results are kept as raw documents
(`self.model.__class__(**document)` materialization is entity binding,
orthogonal to the pagination claims). -/
structure Pagination where
  count : Nat
  results : List PyDoc
  current : Int
  results_per_page : Int

/-- `Pagination.__len__`: the total matching count, not the page size. -/
def Pagination.len (p : Pagination) : Nat := p.count

/-- `Select.fetch_all(current, results_per_page)`, function-filter branch:
the store has returned `documents` (already sorted), the extracted
filters are applied client-side, and the page is sliced out of the fully
materialized filtered list as `[(current-1)*rpp : current*rpp]`.  The
store-delegated branch computes the same slice via `skip`/`limit`. -/
def fetch_all (documents : List PyDoc) (function_filters : List (String × FuncInfo))
    (current results_per_page : Int) : Pagination :=
  let current := if current < 1 then 1 else current
  let rpp := if results_per_page < 1 then 10 else results_per_page
  let filtered := apply_function_filters documents function_filters
  let count := filtered.length
  let start := ((current - 1) * rpp).toNat
  let paginated := (filtered.drop start).take rpp.toNat
  Pagination.mk count paginated current rpp

/-! ## Store-facing operations (`Flexmodel.load` / `count` / `commit`)

The external store collaborator either returns a value or raises; a call
to it is modelled as an `Except` result passed in.  None of the three
methods contains a `try`/`except` in the source, so a raising store call
propagates out of them unchanged. -/

/-- `Flexmodel.load(id)`: `find_one` then construct on a hit.  The
constructed model is represented by its document. -/
def Flexmodel.load (find_one : Except String (Option PyDoc)) :
    Except String (Option PyDoc) :=
  match find_one with
  | Except.error e => Except.error e
  | Except.ok (some document) => Except.ok (some document)
  | Except.ok Option.none => Except.ok Option.none

/-- `Flexmodel.count()`: the store's `count_documents({})`. -/
def Flexmodel.count (count_documents : Except String Nat) : Except String Nat :=
  match count_documents with
  | Except.error e => Except.error e
  | Except.ok n => Except.ok n

/-- The `for item in ...: if not item.commit(): return False` loop over
nested `Flexmodel` values. -/
def commitChildren : List (Except String Bool) → Except String Bool
  | [] => Except.ok true
  | r :: rs =>
    match r with
    | Except.error e => Except.error e
    | Except.ok false => Except.ok false
    | Except.ok true => commitChildren rs

/-- `Flexmodel.commit(commit_all)`: validation gate, nested commits, then
`replace_one(...).acknowledged` (the `_updated_at` refresh is a state
change without effect on the return value). -/
def Flexmodel.commit (is_committable commit_all : Bool)
    (children : List (Except String Bool))
    (replace_one_ack : Except String Bool) : Except String Bool :=
  if !is_committable then Except.ok false
  else
    match (if commit_all then commitChildren children else Except.ok true) with
    | Except.error e => Except.error e
    | Except.ok false => Except.ok false
    | Except.ok true => replace_one_ack

/-! ## Document-matching semantics of condition trees

Modelled from the spec: the store evaluating a compiled filter is an
external collaborator (§1), and the spec fixes the meaning of the
intermediate representation — logical nodes `$and`/`$or`/`$not` fold
conjunction/disjunction/negation over their children (§4.4, §6), and a
per-field operator dict is the conjunction of its operator constraints
(§4.4: the SQL compiler joins them with `AND`).  Field leaves are judged
by a leaf interpretation passed in (`leafSem`), so the theorems below
hold for every interpretation of the leaves. -/

mutual
/-- A condition dict matches when all of its entries match. -/
def condMatches (ls : String → Entry → Bool) : Cond → Bool
  | Cond.mk items => itemsMatch ls items

def itemsMatch (ls : String → Entry → Bool) : List (String × Entry) → Bool
  | [] => true
  | (key, e) :: rest => entryMatches ls key e && itemsMatch ls rest

def entryMatches (ls : String → Entry → Bool) (key : String) : Entry → Bool
  | Entry.condList l =>
    if key == "$and" then condsAll ls l
    else if key == "$or" then condsAny ls l
    else ls key (Entry.condList l)
  | Entry.condDict c =>
    if key == "$not" then !(condMatches ls c)
    else ls key (Entry.condDict c)
  | e => ls key e

def condsAll (ls : String → Entry → Bool) : List Cond → Bool
  | [] => true
  | c :: cs => condMatches ls c && condsAll ls cs

def condsAny (ls : String → Entry → Bool) : List Cond → Bool
  | [] => false
  | c :: cs => condMatches ls c || condsAny ls cs
end

/-- Modelled from the spec: one operator constraint of a per-field
operator dict, judged against an integer field value (claim C10's
bounds are `int | str`; the integer case decides it). -/
def opHoldsInt (v : Int) (op : String) (x : OpV) : Bool :=
  match x with
  | OpV.scalar (PyVal.int n) =>
    if op == "$lt" then decide (v < n)
    else if op == "$gt" then decide (n < v)
    else if op == "$lte" then decide (v ≤ n)
    else if op == "$gte" then decide (n ≤ v)
    else if op == "$eq" then v == n
    else if op == "$ne" then v != n
    else true
  | _ => true

/-- Modelled from the spec: conjunctive per-field operator semantics — a
value matches an operator dict when it satisfies every operator in it. -/
def opsMatchInt (v : Int) (l : List (String × OpV)) : Bool :=
  l.all (fun p => opHoldsInt v p.1 p.2)

/-- `ceil(N / P)` on naturals — the index of the last non-empty page. -/
def ceilPages (N P : Nat) : Nat := (N + P - 1) / P

/-! # Theorems -/

/-- C1 — counterexample.  `add_field` accepts a `str` field whose declared
default `"ab"` violates its own `min_length = 5` constraint (the source
only checks the default against the declared type, never against the
constraint), and `evaluate` then rejects that default. -/
theorem add_field_accepts_constraint_violating_default :
    (Schema.mk []).add_field "tag"
        { type := PyType.str, default := PyVal.str "ab",
          constraint := { min_length := some 5 } } =
      Except.ok (Schema.mk [("tag",
        { name := "tag", type := PyType.str, default := PyVal.str "ab",
          constraint := { min_length := some 5 } })]) ∧
    Field.evaluate
        { name := "tag", type := PyType.str, default := PyVal.str "ab",
          constraint := { min_length := some 5 } } (PyVal.str "ab") =
      some (msg_min_len "tag" 5 "characters") :=
  ⟨rfl, rfl⟩

/-- C1 — amended.  A field accepted by `add_field` with a non-null default
is guaranteed only that the default satisfies the declared-type check;
`evaluate(default)` is additionally `None` when the field declares no
length/range bounds, no pattern, and is not a list (constraint checks on
the default are *not* enforced at construction time). -/
theorem add_field_default_guarantees (s s' : Schema) (name : String) (f : Field)
    (h : s.add_field name f = Except.ok s') (hd : f.default.isNone = false) :
    isinstance f.default f.type = true ∧
    (f.constraint.min_length = Option.none → f.constraint.max_length = Option.none →
      f.constraint.pattern.isNone = true → f.type ≠ PyType.list →
      Field.evaluate { f with name := name } f.default = Option.none) := by
  unfold Schema.add_field at h
  split at h
  · exact absurd h (by simp)
  · split at h
    · exact absurd h (by simp)
    · split at h
      · exact absurd h (by simp)
      · split at h
        · exact absurd h (by simp)
        · rename_i h1 h2 h3 h4
          have hinst : isinstance f.default f.type = true := by
            simp [hd] at h2
            exact h2
          refine ⟨hinst, ?_⟩
          intro hmin hmax hpat hlist
          have hbeq : (f.type == PyType.list) = false := by
            simp [hlist]
          have hpat' : f.constraint.pattern = Option.none :=
            Option.isNone_iff_eq_none.mp hpat
          cases hv : f.default with
          | pyNone => rw [hv] at hd; simp [PyVal.isNone] at hd
          | _ =>
            rw [hv] at hinst
            simp only [Field.evaluate, hv, PyVal.isNone, Bool.and_false, if_neg,
              Bool.not_false, hinst, Bool.not_true, Bool.false_eq_true,
              if_false, ite_false, ite_true]
            simp [itemCheck, boundsCheckCode, patternCheck, hbeq, hmin, hmax,
              hpat', intTruthy]

/-- C1 — witness for the amended theorem at a concrete field. -/
theorem add_field_default_guarantees_witness :
    ((Schema.mk []).add_field "n" { type := PyType.int, default := PyVal.int 3 } =
        Except.ok
          (Schema.mk [("n", { name := "n", type := PyType.int, default := PyVal.int 3 })]) ∧
      (PyVal.int 3).isNone = false) ∧
    (isinstance (PyVal.int 3) PyType.int = true ∧
      (({ type := PyType.int, default := PyVal.int 3 } : Field).constraint.min_length =
          Option.none →
        ({ type := PyType.int, default := PyVal.int 3 } : Field).constraint.max_length =
          Option.none →
        ({ type := PyType.int, default := PyVal.int 3 } : Field).constraint.pattern.isNone =
          true →
        ({ type := PyType.int, default := PyVal.int 3 } : Field).type ≠ PyType.list →
        Field.evaluate { name := "n", type := PyType.int, default := PyVal.int 3 }
          (PyVal.int 3) = Option.none)) :=
  ⟨⟨rfl, rfl⟩,
    add_field_default_guarantees (Schema.mk [])
      (Schema.mk [("n", { name := "n", type := PyType.int, default := PyVal.int 3 })]) "n"
      { type := PyType.int, default := PyVal.int 3 } rfl rfl⟩

/-- C2 — counterexample.  The claim's bounds stage applies
`min_length <= value <= max_length` whenever a bound is declared, but the
code guards every bound with Python truthiness: a declared
`max_length = 0` on a `str` field is skipped entirely, so `evaluate`
accepts the one-character string the claimed pipeline rejects. -/
theorem evaluate_skips_zero_max_length :
    Field.evaluate
        { name := "tag", type := PyType.str, constraint := { max_length := some 0 } }
        (PyVal.str "a") = Option.none ∧
    evaluateClaim
        { name := "tag", type := PyType.str, constraint := { max_length := some 0 } }
        (PyVal.str "a") = some (msg_max_len "tag" 0 "characters") :=
  ⟨rfl, rfl⟩

/-- C2 — amended.  `Field.evaluate` is exactly the claimed five-stage
first-failure-wins pipeline — null-ness against `nullable`, declared
type, per-item type for lists, bounds, pattern (on string values) — with
the bounds stage amended to the code's guards: a bound equal to `0` is
skipped for `str`/`list`/`tuple`, and a bound `<= 0` is skipped for
`int`/`float`. -/
theorem evaluate_is_ordered_pipeline (f : Field) (v : PyVal) :
    Field.evaluate f v = evaluateAmended f v := by
  unfold Field.evaluate evaluateAmended evaluatePipeline
  by_cases hn : v.isNone
  · by_cases ht : intTruthy (some f.nullable) <;>
      simp [hn, ht, firstFailure]
  · by_cases hi : isinstance v f.type
    · simp only [hn, hi, Bool.and_false, Bool.not_true, Bool.false_eq_true, if_false,
        ite_false, ite_true]
      have htc : typeCheck f v = Option.none := by simp [typeCheck, hi]
      simp only [htc, firstFailure]
      cases h1 : itemCheck f v with
      | some m => simp [h1, firstFailure]
      | none =>
        simp only [h1, firstFailure]
        cases h2 : boundsCheckCode f v with
        | some m => simp [h2, firstFailure]
        | none =>
          simp only [h2, firstFailure]
          cases h3 : patternCheck f v <;> simp [h3, firstFailure]
    · have htc : typeCheck f v = some (msg_type f.name f.type v) := by
        simp [typeCheck, hi]
      simp [hn, hi, htc, firstFailure]

/-- The filter loop with its `break` bookkeeping accepts a document
exactly when every filter accepts it. -/
theorem docPasses_eq_all (doc : PyDoc) (ffs : List (String × FuncInfo)) :
    docPasses doc ffs = ffs.all (fun p => filterPasses doc p.1 p.2) := by
  induction ffs with
  | nil => rfl
  | cons p rest ih =>
    cases p with
    | mk field_name fi =>
      by_cases h : filterPasses doc field_name fi <;>
        simp [docPasses, h, ih]

/-- The outer document loop builds exactly the sublist of accepted
documents. -/
theorem filterLoop_eq_filter (docs : List PyDoc) (ffs : List (String × FuncInfo)) :
    filterLoop docs ffs = docs.filter (fun d => docPasses d ffs) := by
  induction docs with
  | nil => rfl
  | cons d rest ih =>
    by_cases h : docPasses d ffs <;> simp [filterLoop, h, ih]

/-- C3 — the function-filter evaluator has conjunctive semantics: for
every filter list and document list it keeps exactly the documents every
extracted filter accepts (regardless of where the filter originally sat
in the tree — the filters are a flat list by the time they reach the
evaluator); within one filter each chained function receives a wrapper
binding the prior result under the field's name; and on the spec's
concrete example (`f1(doc) = doc.price * 0.75`, operator `$gt`, value
`50`) the record with `price = 100` passes while `price = 50` fails. -/
theorem apply_function_filters_conjunctive :
    (∀ (documents : List PyDoc) (ffs : List (String × FuncInfo)),
      apply_function_filters documents ffs =
        documents.filter (fun doc => ffs.all (fun p => filterPasses doc p.1 p.2))) ∧
    (∀ (n : String) (f : PyDoc → PyVal) (fs : List (PyDoc → PyVal)) (w : PyDoc) (r : PyVal),
      chainLoop n (f :: fs) w r = chainLoop n fs [(n, f w)] (f w)) ∧
    apply_function_filters [[("price", PyVal.int 100)], [("price", PyVal.int 50)]]
        [("price", ⟨[discount75], "$gt", PyVal.int 50⟩)] =
      [[("price", PyVal.int 100)]] := by
  refine ⟨?_, ?_, ?_⟩
  · intro documents ffs
    by_cases h : ffs.isEmpty
    · have : ffs = [] := List.isEmpty_iff.mp h
      simp [this, apply_function_filters]
    · simp only [apply_function_filters, h, ite_false, if_false]
      rw [filterLoop_eq_filter]
      simp [docPasses_eq_all]
  · intro n f fs w r
    rfl
  · have h100 : filterPasses [("price", PyVal.int 100)] "price"
        ⟨[discount75], "$gt", PyVal.int 50⟩ = true := by
      simp only [filterPasses, chainLoop, discount75, dictGetD, dictGet, List.find?,
        opCompare, pyLt, PyVal.isNum, PyVal.toRat]
      norm_num
      decide
    have h50 : filterPasses [("price", PyVal.int 50)] "price"
        ⟨[discount75], "$gt", PyVal.int 50⟩ = false := by
      simp only [filterPasses, chainLoop, discount75, dictGetD, dictGet, List.find?,
        opCompare, pyLt, PyVal.isNum, PyVal.toRat]
      norm_num
      decide
    simp [apply_function_filters, filterLoop, docPasses, h100, h50]

/-- C4 — counterexample.  A `$__function__` leaf matches none of the
operator branches of `to_sql`, so it is silently omitted: the compiled
statement set `{price: {"$__function__": ...}}` produces a dangling
`WHERE` with no clause at all — no explanatory comment appears in the
output. -/
theorem to_sql_drops_function_leaf :
    to_sql "products"
        [("price", Entry.ops [("$__function__", OpV.func ⟨[], "$gt", PyVal.int 50⟩)])] =
      "SELECT * FROM products WHERE " := by
  simp only [to_sql, List.isEmpty_cons, ite_false, if_false, Bool.false_eq_true,
    parseCond, condClauses, entryClauses, opClauses, opClause]
  decide

/-- C4 — amended.  Bare scalar leaves do compile to `field = 'value'`,
but a leaf whose operator cannot be parsed (in particular a
`$__function__` leaf) contributes no clause at all: it is silently
omitted from the WHERE clause rather than rendered as a comment. -/
theorem to_sql_scalar_leaf_and_silent_drop (cn key : String) (v : PyVal) (fi : FuncInfo)
    (h1 : key ≠ "$and") (h2 : key ≠ "$or") (h3 : key ≠ "$not") :
    to_sql cn [(key, Entry.scalar v)] =
      "SELECT * FROM " ++ cn ++ " WHERE " ++ (key ++ " = " ++ quo ++ pyStr v ++ quo) ∧
    to_sql cn [(key, Entry.ops [("$__function__", OpV.func fi)])] =
      "SELECT * FROM " ++ cn ++ " WHERE " := by
  constructor
  · simp only [to_sql, List.isEmpty_cons, ite_false, if_false, Bool.false_eq_true]
    have : parseCond (Cond.mk [(key, Entry.scalar v)]) = key ++ " = " ++ quo ++ pyStr v ++ quo := by
      simp only [parseCond, condClauses, entryClauses, beq_eq_false_iff_ne, ne_eq,
        List.append_nil]
      rw [if_neg (by simp [h1]), if_neg (by simp [h2]), if_neg (by simp [h3])]
      rfl
    rw [this]
  · simp only [to_sql, List.isEmpty_cons, ite_false, if_false, Bool.false_eq_true]
    have : parseCond (Cond.mk [(key, Entry.ops [("$__function__", OpV.func fi)])]) = "" := by
      simp only [parseCond, condClauses, entryClauses, List.append_nil]
      rw [if_neg (by simp [h1]), if_neg (by simp [h2]), if_neg (by simp [h3])]
      simp [opClauses, opClause]
      rfl
    rw [this]
    simp

/-- C4 — witness for the amended theorem at a concrete field leaf. -/
theorem to_sql_scalar_leaf_witness :
    ("price" ≠ "$and" ∧ "price" ≠ "$or" ∧ "price" ≠ "$not") ∧
    (to_sql "products" [("price", Entry.scalar (PyVal.int 10))] =
        "SELECT * FROM " ++ "products" ++ " WHERE " ++
          ("price" ++ " = " ++ quo ++ pyStr (PyVal.int 10) ++ quo) ∧
      to_sql "products" [("price", Entry.ops [("$__function__",
          OpV.func ⟨[], "$gt", PyVal.int 50⟩)])] =
        "SELECT * FROM " ++ "products" ++ " WHERE ") :=
  ⟨⟨by decide, by decide, by decide⟩,
    to_sql_scalar_leaf_and_silent_drop "products" "price" (PyVal.int 10)
      ⟨[], "$gt", PyVal.int 50⟩ (by decide) (by decide) (by decide)⟩

/-- C5 — counterexample.  A raising store call is *not* swallowed: `load`
does not return an absent result, `count` does not return zero, and
`commit` does not return `false` — each propagates the error. -/
theorem store_error_not_swallowed :
    Flexmodel.load (Except.error "io failure") ≠ Except.ok Option.none ∧
    Flexmodel.count (Except.error "io failure") ≠ Except.ok 0 ∧
    Flexmodel.commit true true [] (Except.error "io failure") ≠ Except.ok false :=
  ⟨fun h => Except.noConfusion h, fun h => Except.noConfusion h,
    fun h => Except.noConfusion h⟩

/-- C5 — amended.  There is no `try`/`except` around the store calls of
`load`/`count`/`commit`: a store failure propagates to the caller
unchanged.  On successful store calls, `load` returns the found document
option, `count` the store's count, and `commit` the acknowledgement —
`commit` returns `false` (without consulting the store) only when the
validation gate or a nested commit fails. -/
theorem store_operations_propagate_errors (e : String) (d : Option PyDoc) (n : Nat)
    (ack : Except String Bool) :
    Flexmodel.load (Except.error e) = Except.error e ∧
    Flexmodel.load (Except.ok d) = Except.ok d ∧
    Flexmodel.count (Except.error e) = Except.error e ∧
    Flexmodel.count (Except.ok n) = Except.ok n ∧
    Flexmodel.commit true true [] (Except.error e) = Except.error e ∧
    Flexmodel.commit true true [Except.error e] ack = Except.error e ∧
    Flexmodel.commit false true [] ack = Except.ok false ∧
    Flexmodel.commit true true [Except.ok false] ack = Except.ok false ∧
    Flexmodel.commit true true [] ack = ack := by
  refine ⟨?_, ?_, rfl, rfl, rfl, rfl, rfl, rfl, rfl⟩
  · rfl
  · cases d <;> rfl

/-- The page after the last one starts at or past the end of the list. -/
theorem le_ceilPages_mul (N P : Nat) (hP : 0 < P) : N ≤ ceilPages N P * P := by
  unfold ceilPages
  have h1 : P * ((N + P - 1) / P) + (N + P - 1) % P = N + P - 1 := Nat.div_add_mod _ _
  have h2 : (N + P - 1) % P < P := Nat.mod_lt _ hP
  rw [Nat.mul_comm]
  generalize P * ((N + P - 1) / P) = m at h1 ⊢
  omega

/-- The last page starts strictly before the end of the list. -/
theorem ceilPages_pred_mul_lt (N P : Nat) (hN : 0 < N) : (ceilPages N P - 1) * P < N := by
  unfold ceilPages
  have h1 : (N + P - 1) / P * P ≤ N + P - 1 := Nat.div_mul_le_self _ _
  rw [Nat.sub_mul, Nat.one_mul]
  generalize (N + P - 1) / P * P = m at h1 ⊢
  omega

/-- A non-empty list has at least one page. -/
theorem one_le_ceilPages (N P : Nat) (hN : 0 < N) (hP : 0 < P) : 1 ≤ ceilPages N P := by
  unfold ceilPages
  rw [Nat.one_le_div_iff hP]
  omega

/-- C6 — `fetch_all` pagination: a page argument `< 1` is clamped to 1 and
a page-size argument `< 1` is clamped to the default 10; the returned
`Pagination`'s length is the total matching count, not the page's item
count; the page slice taken from the fully materialized filtered list is
`[(page-1)*P : page*P]`; and with `N` matches and page size `P`, page
`ceil(N/P)` is non-empty while page `ceil(N/P)+1` is empty with the
reported count still `N`. -/
theorem fetch_all_pagination (documents : List PyDoc) (ffs : List (String × FuncInfo))
    (current rpp : Int) (P : Nat) (hP : 0 < P) :
    (current < 1 → fetch_all documents ffs current rpp = fetch_all documents ffs 1 rpp) ∧
    (rpp < 1 → fetch_all documents ffs current rpp = fetch_all documents ffs current 10) ∧
    (fetch_all documents ffs current rpp).len =
      (apply_function_filters documents ffs).length ∧
    (1 ≤ current → 1 ≤ rpp →
      (fetch_all documents ffs current rpp).results =
        ((apply_function_filters documents ffs).drop
          (((current - 1) * rpp).toNat)).take rpp.toNat) ∧
    (0 < (apply_function_filters documents ffs).length →
      (fetch_all documents ffs
          ((ceilPages (apply_function_filters documents ffs).length P : Nat) : Int)
          ((P : Nat) : Int)).results ≠ [] ∧
      (fetch_all documents ffs
          (((ceilPages (apply_function_filters documents ffs).length P : Nat) : Int) + 1)
          ((P : Nat) : Int)).results = [] ∧
      (fetch_all documents ffs
          (((ceilPages (apply_function_filters documents ffs).length P : Nat) : Int) + 1)
          ((P : Nat) : Int)).len = (apply_function_filters documents ffs).length) := by
  refine ⟨?_, ?_, ?_, ?_, ?_⟩
  · intro h
    simp [fetch_all, h]
  · intro h
    simp [fetch_all, h]
  · simp [fetch_all, Pagination.len]
  · intro h1 h2
    have hc : ¬(current < 1) := by omega
    have hr : ¬(rpp < 1) := by omega
    simp [fetch_all, hc, hr]
  · intro hN
    set filtered := apply_function_filters documents ffs with hf
    set N := filtered.length with hlen
    set p1 := ceilPages N P with hp1def
    have hp1 : 1 ≤ p1 := one_le_ceilPages N P hN hP
    have hcast1 : ¬((p1 : Int) < 1) := by exact_mod_cast Nat.not_lt.mpr hp1
    have hcastP : ¬((P : Int) < 1) := by exact_mod_cast Nat.not_lt.mpr hP
    have htoNatP : ((P : Int)).toNat = P := Int.toNat_natCast P
    refine ⟨?_, ?_, ?_⟩
    · have hstart : (((p1 : Int) - 1) * (P : Int)).toNat = (p1 - 1) * P := by
        have heq : ((p1 : Int) - 1) * (P : Int) = (((p1 - 1) * P : Nat) : Int) := by
          push_cast [Nat.cast_sub hp1]
          ring
        rw [heq, Int.toNat_natCast]
      have hlt : (p1 - 1) * P < N := by
        rw [hp1def]
        exact ceilPages_pred_mul_lt N P hN
      simp only [fetch_all, hcast1, hcastP, ite_false, if_false]
      simp only [hstart, htoNatP]
      rw [← hf]
      apply List.ne_nil_of_length_pos
      rw [List.length_take, List.length_drop]
      omega
    · have hcast2 : ¬((p1 : Int) + 1 < 1) := by omega
      have hstart : (((p1 : Int) + 1 - 1) * (P : Int)).toNat = p1 * P := by
        have heq : ((p1 : Int) + 1 - 1) * (P : Int) = ((p1 * P : Nat) : Int) := by
          push_cast
          ring
        rw [heq, Int.toNat_natCast]
      have hge : filtered.length ≤ p1 * P := by
        rw [← hlen, hp1def]
        exact le_ceilPages_mul N P hP
      simp only [fetch_all, hcast2, hcastP, ite_false, if_false]
      simp only [hstart, htoNatP]
      rw [← hf]
      rw [List.drop_eq_nil_of_le hge, List.take_nil]
    · simp [fetch_all, Pagination.len]

/-- C6 — witness: three documents, page size 2, requested page 5 with
requested size 7. -/
theorem fetch_all_pagination_witness :
    0 < 2 ∧
    (((5 : Int) < 1 →
        fetch_all ([[], [], []] : List PyDoc) [] 5 7 =
          fetch_all ([[], [], []] : List PyDoc) [] 1 7) ∧
      ((7 : Int) < 1 →
        fetch_all ([[], [], []] : List PyDoc) [] 5 7 =
          fetch_all ([[], [], []] : List PyDoc) [] 5 10) ∧
      (fetch_all ([[], [], []] : List PyDoc) [] 5 7).len =
        (apply_function_filters ([[], [], []] : List PyDoc) []).length ∧
      (1 ≤ (5 : Int) → 1 ≤ (7 : Int) →
        (fetch_all ([[], [], []] : List PyDoc) [] 5 7).results =
          ((apply_function_filters ([[], [], []] : List PyDoc) []).drop
            ((((5 : Int) - 1) * 7).toNat)).take (7 : Int).toNat) ∧
      (0 < (apply_function_filters ([[], [], []] : List PyDoc) []).length →
        (fetch_all ([[], [], []] : List PyDoc) []
            ((ceilPages (apply_function_filters ([[], [], []] : List PyDoc) []).length 2 :
              Nat) : Int)
            ((2 : Nat) : Int)).results ≠ [] ∧
        (fetch_all ([[], [], []] : List PyDoc) []
            (((ceilPages (apply_function_filters ([[], [], []] : List PyDoc) []).length 2 :
              Nat) : Int) + 1)
            ((2 : Nat) : Int)).results = [] ∧
        (fetch_all ([[], [], []] : List PyDoc) []
            (((ceilPages (apply_function_filters ([[], [], []] : List PyDoc) []).length 2 :
              Nat) : Int) + 1)
            ((2 : Nat) : Int)).len =
          (apply_function_filters ([[], [], []] : List PyDoc) []).length)) :=
  ⟨by decide, fetch_all_pagination ([[], [], []] : List PyDoc) [] 5 7 2 (by decide)⟩

/-- One `dict[k] = v` write: looking up `k` afterwards yields `v`, every
other key is untouched. -/
theorem find_mapSet_ne (t : List (String × α)) (k kq : String) (v : α)
    (h : (k == kq) = false) :
    (t.map (fun p => if p.1 == k then (k, v) else p)).find? (fun p => p.1 == kq) =
      t.find? (fun p => p.1 == kq) := by
  induction t with
  | nil => rfl
  | cons p t ih =>
    rw [List.map_cons]
    by_cases hp : (p.1 == k) = true
    · have hpk : p.1 = k := by simpa using hp
      have h2 : (p.1 == kq) = false := by rw [hpk]; exact h
      rw [if_pos hp, List.find?_cons_of_neg _ (by simp [h]),
        List.find?_cons_of_neg _ (by simp [h2]), ih]
    · rw [if_neg hp]
      by_cases hq : (p.1 == kq) = true
      · rw [@List.find?_cons_of_pos _ (fun q => q.1 == kq) p _ hq,
          @List.find?_cons_of_pos _ (fun q => q.1 == kq) p _ hq]
      · rw [@List.find?_cons_of_neg _ (fun q => q.1 == kq) p _ hq,
          @List.find?_cons_of_neg _ (fun q => q.1 == kq) p _ hq, ih]

theorem find_mapSet_self (d : List (String × α)) (k : String) (v : α)
    (h : d.any (fun p => p.1 == k) = true) :
    (d.map (fun p => if p.1 == k then (k, v) else p)).find? (fun p => p.1 == k) =
      some (k, v) := by
  induction d with
  | nil => simp at h
  | cons p t ih =>
    rw [List.map_cons]
    by_cases hp : (p.1 == k) = true
    · rw [if_pos hp, List.find?_cons_of_pos _ (by simp)]
    · have ht : t.any (fun p => p.1 == k) = true := by
        simpa [List.any_cons, hp] using h
      rw [if_neg hp, @List.find?_cons_of_neg _ (fun q => q.1 == k) p _ hp, ih ht]

theorem dictGet_dictSet (d : List (String × α)) (k kq : String) (v : α) :
    dictGet (dictSet d k v) kq = if k == kq then some v else dictGet d kq := by
  by_cases hany : d.any (fun p => p.1 == k) = true
  · unfold dictSet
    rw [if_pos hany]
    by_cases hkk : (k == kq) = true
    · have hk : k = kq := by simpa using hkk
      subst hk
      unfold dictGet
      rw [find_mapSet_self d k v hany]
      simp
    · have hkk2 : (k == kq) = false := by simpa using hkk
      unfold dictGet
      rw [find_mapSet_ne d k kq v hkk2]
      simp [hkk2]
  · unfold dictSet
    rw [if_neg hany]
    unfold dictGet
    rw [List.find?_append]
    have hd : d.find? (fun p => p.1 == k) = Option.none := by
      rw [List.find?_eq_none]
      intro x hx
      intro hpx
      exact hany (List.any_eq_true.mpr ⟨x, hx, hpx⟩)
    by_cases hkk : (k == kq) = true
    · have hk : k = kq := by simpa using hkk
      subst hk
      simp [List.find?, hd, hkk]
    · have hkk2 : (k == kq) = false := by simpa using hkk
      simp [List.find?, hkk2]

/-- Folding a write list into the statement dict: the last write per key
wins, keys never written keep their previous entry. -/
theorem foldl_dictSet_lookup (statements : List (String × Entry))
    (ws : List (String × Entry)) (key : String) :
    dictGet (ws.foldl (fun st p => dictSet st p.1 p.2) statements) key =
      Option.or ((ws.reverse.find? (fun p => p.1 == key)).map (fun p => p.2))
        (dictGet statements key) := by
  induction ws generalizing statements with
  | nil => simp
  | cons w t ih =>
    rw [List.foldl_cons, ih (dictSet statements w.1 w.2)]
    rw [List.reverse_cons, List.find?_append]
    cases hfind : t.reverse.find? (fun p => p.1 == key) with
    | some p => simp [Option.or]
    | none =>
      rw [dictGet_dictSet]
      by_cases hw : (w.1 == key) = true
      · simp [List.find?, hw, Option.or]
      · have hw2 : (w.1 == key) = false := by simpa using hw
        simp [List.find?, hw2, Option.or]

/-- C7 — `where(*leaves)` writes each top-level key of each passed leaf
into the active statement set, last write per key winning: after any
sequence of writes, the entry found under a key is exactly the *last*
entry written for that key across all passed leaves (in order), falling
back to the pre-existing entry — in particular two leaves sharing a key
are never merged into an `$and`; the earlier entry is simply replaced. -/
theorem where_last_write_wins (statements : List (String × Entry))
    (conditions : List Cond) (key : String) :
    dictGet (Select.where statements conditions) key =
      Option.or
        ((((conditions.map Cond.items).flatten).reverse.find? (fun p => p.1 == key)).map
          (fun p => p.2))
        (dictGet statements key) := by
  unfold Select.where
  have hflat : conditions.foldl
      (fun st c => c.items.foldl (fun st p => dictSet st p.1 p.2) st) statements =
      ((conditions.map Cond.items).flatten).foldl
        (fun st p => dictSet st p.1 p.2) statements := by
    induction conditions generalizing statements with
    | nil => rfl
    | cons c t ih => simp [List.foldl_append, ih]
  rw [hflat, foldl_dictSet_lookup]

/-- C8 — counterexample.  `match`/`at_least` are not associative as tree
builders: re-association produces structurally different dicts.  And the
empty node `{}` returned for zero arguments matches every document, so
while it is neutral for `match` (conjunction), it is *absorbing* for
`at_least` (disjunction): adding it to an `$or` makes the disjunction
vacuously true. -/
theorem combinators_counterexample :
    Select.matchAll [Select.matchAll [Cond.mk [("x", Entry.scalar (PyVal.int 1))],
        Cond.mk [("y", Entry.scalar (PyVal.int 2))]],
      Cond.mk [("z", Entry.scalar (PyVal.int 3))]] ≠
      Select.matchAll [Cond.mk [("x", Entry.scalar (PyVal.int 1))],
        Select.matchAll [Cond.mk [("y", Entry.scalar (PyVal.int 2))],
          Cond.mk [("z", Entry.scalar (PyVal.int 3))]]] ∧
    Select.at_least [Select.at_least [Cond.mk [("x", Entry.scalar (PyVal.int 1))],
        Cond.mk [("y", Entry.scalar (PyVal.int 2))]],
      Cond.mk [("z", Entry.scalar (PyVal.int 3))]] ≠
      Select.at_least [Cond.mk [("x", Entry.scalar (PyVal.int 1))],
        Select.at_least [Cond.mk [("y", Entry.scalar (PyVal.int 2))],
          Cond.mk [("z", Entry.scalar (PyVal.int 3))]]] ∧
    condMatches (fun _ _ => false)
      (Select.at_least [Cond.mk [("x", Entry.scalar (PyVal.int 1))],
        Select.at_least []]) = true ∧
    condMatches (fun _ _ => false)
      (Select.at_least [Cond.mk [("x", Entry.scalar (PyVal.int 1))]]) = false := by
  refine ⟨?_, ?_, ?_, ?_⟩
  · simp [Select.matchAll]
  · simp [Select.at_least]
  · simp [Select.at_least, condMatches, itemsMatch, entryMatches, condsAny]
  · simp [Select.at_least, condMatches, itemsMatch, entryMatches, condsAny]

/-- C8 — amended.  Under the document-matching semantics of the condition
trees, `match` and `at_least` *are* associative (their re-associated
outputs match exactly the same documents, for every leaf interpretation),
and each returns the empty dict for zero arguments; the empty dict
matches everything, which makes it neutral for `match` but absorbing for
`at_least`. -/
theorem combinators_semantically_associative (ls : String → Entry → Bool) (a b c : Cond) :
    condMatches ls (Select.matchAll [Select.matchAll [a, b], c]) =
      condMatches ls (Select.matchAll [a, Select.matchAll [b, c]]) ∧
    condMatches ls (Select.at_least [Select.at_least [a, b], c]) =
      condMatches ls (Select.at_least [a, Select.at_least [b, c]]) ∧
    Select.matchAll [] = Cond.mk [] ∧
    Select.at_least [] = Cond.mk [] ∧
    condMatches ls (Cond.mk []) = true ∧
    condMatches ls (Select.matchAll [a]) = condMatches ls a ∧
    condMatches ls (Select.matchAll [a, Cond.mk []]) =
      condMatches ls (Select.matchAll [a]) ∧
    condMatches ls (Select.at_least [a, Cond.mk []]) = true := by
  refine ⟨?_, ?_, rfl, rfl, ?_, ?_, ?_, ?_⟩ <;>
    simp [Select.matchAll, Select.at_least, condMatches, itemsMatch, entryMatches,
      condsAll, condsAny, Bool.and_assoc, Bool.or_assoc]

/-- C9 — building a `Statement` from a `Select` (by attribute or by item)
validates the field name against the model schema and consults no store:
an unknown name raises `FlexmodelException`, a known name yields the
`Statement` for that field, carrying the model value (or the schema
default) and an empty function chain. -/
theorem select_field_validation (schema : Schema) (modelDict : List (String × PyVal))
    (name : String) :
    (schema.fields.any (fun p => p.1 == name) = false →
      Select.getattr schema modelDict name =
        Except.error
          ("Select statement: field " ++ name ++ " does not exist in the model schema.") ∧
      Select.getitem schema modelDict name =
        Except.error
          ("Select statement: field " ++ name ++ " does not exist in the model schema.")) ∧
    (schema.fields.any (fun p => p.1 == name) = true →
      Select.getattr schema modelDict name =
        Except.ok
          { name := name,
            model := dictGetD modelDict name
              (((dictGet schema.fields name).map (fun f => f.default)).getD PyVal.pyNone),
            functions := [] } ∧
      Select.getitem schema modelDict name =
        Except.ok
          { name := name,
            model := dictGetD modelDict name
              (((dictGet schema.fields name).map (fun f => f.default)).getD PyVal.pyNone),
            functions := [] }) := by
  constructor
  · intro h
    constructor <;> simp [Select.getattr, Select.getitem, h]
  · intro h
    constructor <;> simp [Select.getattr, Select.getitem, h]

/-- C9 — witness at a one-field schema. -/
theorem select_field_validation_witness :
    (Schema.mk [("price", { type := PyType.float })]).fields.any
        (fun p => p.1 == "price") = true ∧
    (Select.getattr (Schema.mk [("price", { type := PyType.float })]) [] "price" =
      Except.ok
        { name := "price",
          model := dictGetD [] "price"
            (((dictGet (Schema.mk [("price", { type := PyType.float })]).fields
              "price").map (fun f => f.default)).getD PyVal.pyNone),
          functions := [] } ∧
    Select.getitem (Schema.mk [("price", { type := PyType.float })]) [] "price" =
      Except.ok
        { name := "price",
          model := dictGetD [] "price"
            (((dictGet (Schema.mk [("price", { type := PyType.float })]).fields
              "price").map (fun f => f.default)).getD PyVal.pyNone),
          functions := [] }) :=
  ⟨rfl, (select_field_validation (Schema.mk [("price", { type := PyType.float })])
    [] "price").2 rfl⟩

/-- C10 — `is_not_between(start, end)` emits the single leaf
`{field: {"$lt": start, "$gt": end}}`; under the conjunctive per-field
operator semantics this demands `value < start` *and* `value > end`
simultaneously, so whenever `start <= end` it matches no value at all and
is not the complement of `is_between(start, end)` (which emits
`{field: {"$gte": start, "$lte": end}}`): at `value = start - 1` the
complement of `is_between` matches but `is_not_between` does not. -/
theorem is_not_between_matches_nothing (st : Statement) (start endv : Int)
    (h : start ≤ endv) :
    Statement.is_not_between st (PyVal.int start) (PyVal.int endv) =
      Cond.mk [(st.name, Entry.ops [("$lt", OpV.scalar (PyVal.int start)),
        ("$gt", OpV.scalar (PyVal.int endv))])] ∧
    Statement.is_between st (PyVal.int start) (PyVal.int endv) =
      Cond.mk [(st.name, Entry.ops [("$gte", OpV.scalar (PyVal.int start)),
        ("$lte", OpV.scalar (PyVal.int endv))])] ∧
    (∀ v : Int, opsMatchInt v [("$lt", OpV.scalar (PyVal.int start)),
      ("$gt", OpV.scalar (PyVal.int endv))] = false) ∧
    opsMatchInt (start - 1) [("$lt", OpV.scalar (PyVal.int start)),
        ("$gt", OpV.scalar (PyVal.int endv))] ≠
      !(opsMatchInt (start - 1) [("$gte", OpV.scalar (PyVal.int start)),
        ("$lte", OpV.scalar (PyVal.int endv))]) := by
  refine ⟨rfl, rfl, ?_, ?_⟩
  · intro v
    simp [opsMatchInt, opHoldsInt]
    omega
  · simp [opsMatchInt, opHoldsInt]
    omega

/-- C10 — witness at `start = 1`, `end = 5`. -/
theorem is_not_between_matches_nothing_witness :
    (1 : Int) ≤ 5 ∧
    (Statement.is_not_between { name := "price" } (PyVal.int 1) (PyVal.int 5) =
      Cond.mk [("price", Entry.ops [("$lt", OpV.scalar (PyVal.int 1)),
        ("$gt", OpV.scalar (PyVal.int 5))])] ∧
    Statement.is_between { name := "price" } (PyVal.int 1) (PyVal.int 5) =
      Cond.mk [("price", Entry.ops [("$gte", OpV.scalar (PyVal.int 1)),
        ("$lte", OpV.scalar (PyVal.int 5))])] ∧
    (∀ v : Int, opsMatchInt v [("$lt", OpV.scalar (PyVal.int 1)),
      ("$gt", OpV.scalar (PyVal.int 5))] = false) ∧
    opsMatchInt ((1 : Int) - 1) [("$lt", OpV.scalar (PyVal.int 1)),
        ("$gt", OpV.scalar (PyVal.int 5))] ≠
      !(opsMatchInt ((1 : Int) - 1) [("$gte", OpV.scalar (PyVal.int 1)),
        ("$lte", OpV.scalar (PyVal.int 5))])) :=
  ⟨by decide, is_not_between_matches_nothing { name := "price" } 1 5 (by decide)⟩

end FlexSchema

